import Mathlib

/-!
Shallow embedding of `blacksheep/server/templating.py` (a small adapter that
connects the BlackSheep web framework to the Jinja2 template engine), together
with theorems checking the specification's claims about it.

The adapter's own code (`template_name`, `get_response`, `render_template`,
`render_template_async`, `use_templates`, `view`, `view_async`) is translated
directly from the source.  Its collaborators — the BlackSheep `Application`,
`Response` and `Content` classes and the Jinja2 engine — are not part of the
source file; they are modelled from the specification's description of the
consumed interfaces (service registry as a string-keyed map with get-or-absent
lookup, template engine as name resolution plus sync/async rendering, response
as status/headers/content).  Engine failures (template not found, rendering
errors) are embedded with `Except`; awaiting a coroutine is embedded as plain
application, and the sync/async nature of a returned view function is recorded
by the `ViewFn` constructor.
-/

/-- Render-call arguments: the positional values and keyword mapping that the
adapter forwards opaquely to the engine's render routine. -/
structure Args where
  pos : List String
  kw : List (String × String)
deriving DecidableEq

/-- Modelled from the spec: failures of the template-engine collaborator that
propagate through the adapter (template-not-found, rendering-syntax,
argument-mismatch). -/
inductive EngineError where
  | templateNotFound (name : String)
  | renderingSyntax (msg : String)
  | argumentMismatch (msg : String)
deriving DecidableEq

/-- Modelled from the spec: a compiled template of the engine collaborator,
supporting synchronous and asynchronous rendering of arguments to a string
(awaiting the asynchronous routine is embedded as application). -/
structure Template where
  render : Args → Except EngineError String
  render_async : Args → Except EngineError String

/-- Modelled from the spec: the template loader given to the environment
constructor; resolves template names to compiled templates. -/
structure PackageLoader where
  mapping : List (String × Template)

/-- Get-or-absent lookup in a string-keyed association list. -/
def assocGet {α : Type} : List (String × α) → String → Option α
  | [], _ => none
  | (k, v) :: rest, key => if k = key then some v else assocGet rest key

/-- Assignment by string key in an association list (overwrite or append). -/
def assocSet {α : Type} : List (String × α) → String → α → List (String × α)
  | [], key, v => [(key, v)]
  | (k, w) :: rest, key, v =>
      if k = key then (key, v) :: rest else (k, w) :: assocSet rest key v

/-- Modelled from the spec: the engine's autoescape selector; the configuration
is recorded as the list of content kinds that get escaped. -/
def select_autoescape (exts : List String) : List String := exts

/-- Modelled from the spec: the rendering environment collaborator, holding the
loader, autoescape rule, auto-reload flag, async-enable flag and a global
namespace (object references in globals are stored by application identity). -/
structure Environment where
  loader : PackageLoader
  autoescape : List String
  auto_reload : Bool
  enable_async : Bool
  globals : List (String × Nat)

/-- Modelled from the spec: name resolution of the engine collaborator; a name
absent from the loader raises a template-not-found error. -/
def Environment.get_template (env : Environment) (name : String) :
    Except EngineError Template :=
  match assocGet env.loader.mapping name with
  | some t => Except.ok t
  | none => Except.error (EngineError.templateNotFound name)

/-- Modelled from the spec: the application's service registry, a mapping-like
object supporting get-or-absent lookup and assignment by string key. -/
abbrev Services : Type := List (String × Environment)

/-- Modelled from the spec: the application collaborator, exposing a debug flag
and a mutable service registry; `ref` is the object identity used when the
application is stored by reference in an environment's globals. -/
structure Application where
  ref : Nat
  debug : Bool
  services : Services

/-- Python `str.endswith`: whether `suffix` is a suffix of `s`. -/
def endswith (s suffix : String) : Bool := suffix.data.isSuffixOf s.data

/-- Translation of `template_name`: append the `.html` extension when absent
(the `lru_cache` decoration memoizes a pure function and is not modelled). -/
def template_name (name : String) : String :=
  if !(endswith name ".html") then name ++ ".html" else name

/-- The UTF-8 encoding of one code point, as a list of byte values. -/
def utf8EncodeCharNat (n : Nat) : List Nat :=
  if n < 0x80 then [n]
  else if n < 0x800 then
    [0xC0 ||| (n >>> 6), 0x80 ||| (n &&& 0x3F)]
  else if n < 0x10000 then
    [0xE0 ||| (n >>> 12), 0x80 ||| ((n >>> 6) &&& 0x3F), 0x80 ||| (n &&& 0x3F)]
  else
    [0xF0 ||| (n >>> 18), 0x80 ||| ((n >>> 12) &&& 0x3F),
      0x80 ||| ((n >>> 6) &&& 0x3F), 0x80 ||| (n &&& 0x3F)]

/-- Python `html.encode('utf8')`: the UTF-8 bytes of a string. -/
def utf8Bytes (s : String) : List Nat :=
  s.data.flatMap (fun c => utf8EncodeCharNat c.toNat)

/-- Modelled from the spec: the BlackSheep `Content` value — a content type and
body bytes. -/
structure Content where
  contentType : String
  body : List Nat
deriving DecidableEq

/-- Modelled from the spec: the BlackSheep `Response` value — a status code, a
header list and optional content. -/
structure Response where
  status : Nat
  headers : List (String × String)
  content : Option Content
deriving DecidableEq

/-- Modelled from the spec: `Response.with_content` attaches content. -/
def Response.with_content (r : Response) (c : Content) : Response :=
  { r with content := some c }

/-- Translation of `get_response`: a 200 response with a `Cache-Control:
no-cache` header and the UTF-8 encoded HTML as `text/html` content. -/
def get_response (html : String) : Response :=
  Response.with_content
    { status := 200, headers := [("Cache-Control", "no-cache")], content := none }
    { contentType := "text/html; charset=utf-8", body := utf8Bytes html }

/-- Translation of `render_template`: synchronous rendering. -/
def render_template (template : Template) (args : Args) :
    Except EngineError String :=
  template.render args

/-- Translation of `render_template_async`: asynchronous rendering (the await
is embedded as application). -/
def render_template_async (template : Template) (args : Args) :
    Except EngineError String :=
  template.render_async args

/-- The view function returned by `use_templates`: the constructor records
whether it is a suspend-capable (coroutine) function or a plain one. -/
inductive ViewFn where
  | coroutineFn (f : String → Args → Except EngineError Response)
  | plainFn (f : String → Args → Except EngineError Response)

/-- The environment constructed by `use_templates` when the registry holds
none: configured with the given loader, autoescape for html/xml, auto-reload
equal to the application's debug flag, async capability per the flag, and the
application stored (by identity) under the global name `app`. -/
def newEnvironment (app : Application) (loader : PackageLoader)
    (enable_async : Bool) : Environment :=
  { loader := loader
    autoescape := select_autoescape ["html", "xml"]
    auto_reload := app.debug
    enable_async := enable_async
    globals := [("app", app.ref)] }

/-- Translation of `use_templates`: look up the registry; when absent,
construct the environment, store it under the keys `jinja_environment` and
`jinja` and set its `app` global; then return an async or sync view closure
over the environment according to `enable_async`.  Registry mutation is
embedded by returning the updated application. -/
def use_templates (app : Application) (loader : PackageLoader)
    (enable_async : Bool) : Application × ViewFn :=
  let p : Environment × Application :=
    match assocGet app.services "jinja_environment" with
    | some env => (env, app)
    | none =>
        let env := newEnvironment app loader enable_async
        let services :=
          assocSet (assocSet app.services "jinja_environment" env) "jinja" env
        (env, { app with services := services })
  let env := p.1
  let app := p.2
  if enable_async then
    (app, ViewFn.coroutineFn (fun name args =>
      (env.get_template (template_name name)).bind fun t =>
        (render_template_async t args).map get_response))
  else
    (app, ViewFn.plainFn (fun name args =>
      (env.get_template (template_name name)).bind fun t =>
        (render_template t args).map get_response))

/-- Translation of `view`: normalize, resolve, render synchronously, wrap. -/
def view (jinja_environment : Environment) (name : String) (args : Args) :
    Except EngineError Response :=
  (jinja_environment.get_template (template_name name)).bind fun t =>
    (render_template t args).map get_response

/-- Translation of `view_async`: normalize, resolve, await asynchronous
rendering, wrap. -/
def view_async (jinja_environment : Environment) (name : String) (args : Args) :
    Except EngineError Response :=
  (jinja_environment.get_template (template_name name)).bind fun t =>
    (render_template_async t args).map get_response

/-- The environment a `use_templates` call operates with: the stored one when
present, the freshly constructed one otherwise. -/
def provisionedEnv (app : Application) (loader : PackageLoader)
    (enable_async : Bool) : Environment :=
  match assocGet app.services "jinja_environment" with
  | some env => env
  | none => newEnvironment app loader enable_async

/-- The application state after a `use_templates` call. -/
def provisionedApp (app : Application) (loader : PackageLoader)
    (enable_async : Bool) : Application :=
  match assocGet app.services "jinja_environment" with
  | some _ => app
  | none =>
      let env := newEnvironment app loader enable_async
      { app with services :=
          assocSet (assocSet app.services "jinja_environment" env) "jinja" env }

/-- A concrete template used in witnesses: its synchronous and asynchronous
renderings deliberately differ. -/
def tmplW : Template :=
  { render := fun _ => Except.ok "<p>hi</p>"
    render_async := fun _ => Except.ok "<p>async</p>" }

/-- A concrete loader holding the single template `index.html`. -/
def loaderW : PackageLoader := { mapping := [("index.html", tmplW)] }

/-- A concrete empty loader: every resolution fails. -/
def loaderE : PackageLoader := { mapping := [] }

/-- Concrete empty render arguments. -/
def argsW : Args := { pos := [], kw := [] }

/-- A concrete environment over `loaderW`, without async capability. -/
def envW : Environment :=
  { loader := loaderW, autoescape := ["html", "xml"], auto_reload := false,
    enable_async := false, globals := [] }

/-- A concrete environment over the empty loader. -/
def envE : Environment :=
  { loader := loaderE, autoescape := [], auto_reload := false,
    enable_async := false, globals := [] }

/-- A concrete application with an empty service registry. -/
def appW : Application := { ref := 7, debug := false, services := [] }

/-- A concrete application whose registry already stores `envW`. -/
def appS : Application :=
  { ref := 7, debug := false, services := [("jinja_environment", envW)] }

/-! Helper lemmas shared by the claim theorems. -/

theorem assocGet_assocSet_self {α : Type} (s : List (String × α)) (k : String)
    (v : α) : assocGet (assocSet s k v) k = some v := by
  induction s with
  | nil => simp [assocSet, assocGet]
  | cons hd tl ih =>
      obtain ⟨k', w⟩ := hd
      by_cases h : k' = k
      · simp [assocSet, assocGet, h]
      · simp [assocSet, assocGet, h, ih]

theorem assocGet_assocSet_ne {α : Type} (s : List (String × α)) (k' k : String)
    (v : α) (h : k' ≠ k) : assocGet (assocSet s k' v) k = assocGet s k := by
  induction s with
  | nil => simp [assocSet, assocGet, h]
  | cons hd tl ih =>
      obtain ⟨k₀, w⟩ := hd
      by_cases h₀ : k₀ = k'
      · subst h₀
        simp [assocSet, assocGet, h]
      · simp [assocSet, assocGet, h₀, ih]

theorem endswith_append (s t : String) : endswith (s ++ t) t = true := by
  simp [endswith, List.isSuffixOf_iff_suffix, String.data_append,
    List.suffix_append]

theorem use_templates_eq (app : Application) (loader : PackageLoader)
    (b : Bool) :
    use_templates app loader b =
      (provisionedApp app loader b,
        if b then ViewFn.coroutineFn (view_async (provisionedEnv app loader b))
        else ViewFn.plainFn (view (provisionedEnv app loader b))) := by
  unfold use_templates provisionedApp provisionedEnv
  cases h : assocGet app.services "jinja_environment" <;> cases b <;> rfl

theorem provisionedApp_stable (app : Application) (loader : PackageLoader)
    (b : Bool) (e : Environment)
    (h : assocGet app.services "jinja_environment" = some e) :
    provisionedApp app loader b = app := by
  simp [provisionedApp, h]

theorem provisionedEnv_stable (app : Application) (loader : PackageLoader)
    (b : Bool) (e : Environment)
    (h : assocGet app.services "jinja_environment" = some e) :
    provisionedEnv app loader b = e := by
  simp [provisionedEnv, h]

theorem provisioned_get (app : Application) (loader : PackageLoader)
    (b : Bool) :
    assocGet (provisionedApp app loader b).services "jinja_environment" =
      some (provisionedEnv app loader b) := by
  cases h : assocGet app.services "jinja_environment" with
  | some e => simp [provisionedApp, provisionedEnv, h]
  | none =>
      simp only [provisionedApp, provisionedEnv, h]
      rw [assocGet_assocSet_ne _ _ _ _ (by decide), assocGet_assocSet_self]


/-! Claim theorems. -/

/-- C1: on an application whose registry holds no rendering environment,
`use_templates` constructs one configured with the given loader, html/xml
autoescape, auto-reload equal to the debug flag and async capability per the
flag, stores that same environment under the keys `jinja_environment` and
`jinja`, and sets the environment's global `app` to the application; the
absence check is a get-or-absent lookup returning `none` rather than
raising. -/
theorem use_templates_provisions (app : Application) (loader : PackageLoader)
    (b : Bool) (h : assocGet app.services "jinja_environment" = none) :
    (newEnvironment app loader b).loader = loader ∧
    (newEnvironment app loader b).autoescape = ["html", "xml"] ∧
    (newEnvironment app loader b).auto_reload = app.debug ∧
    (newEnvironment app loader b).enable_async = b ∧
    assocGet (newEnvironment app loader b).globals "app" = some app.ref ∧
    assocGet (use_templates app loader b).1.services "jinja_environment" =
      some (newEnvironment app loader b) ∧
    assocGet (use_templates app loader b).1.services "jinja" =
      some (newEnvironment app loader b) := by
  refine ⟨rfl, rfl, rfl, rfl, rfl, ?_, ?_⟩
  · rw [use_templates_eq]
    simp only [provisionedApp, h]
    rw [assocGet_assocSet_ne _ _ _ _ (by decide), assocGet_assocSet_self]
  · rw [use_templates_eq]
    simp only [provisionedApp, h]
    rw [assocGet_assocSet_self]

/-- Witness for C1 at a concrete application with an empty registry. -/
theorem use_templates_provisions_witness :
    assocGet appW.services "jinja_environment" = none ∧
    assocGet (use_templates appW loaderW true).1.services "jinja" =
      some (newEnvironment appW loaderW true) :=
  ⟨rfl, (use_templates_provisions appW loaderW true rfl).2.2.2.2.2.2⟩

/-- C2: two successive `use_templates` calls with `enable_async = false`
return a plain view function both times; the second call leaves the
application (hence its registry) unchanged, a call on an application whose
registry already holds an environment changes nothing, and a first call on an
absent registry stores exactly the newly constructed environment. -/
theorem use_templates_idempotent (app : Application) (loader : PackageLoader) :
    (∃ f, (use_templates app loader false).2 = ViewFn.plainFn f) ∧
    (∃ g, (use_templates (use_templates app loader false).1 loader false).2 =
      ViewFn.plainFn g) ∧
    (use_templates (use_templates app loader false).1 loader false).1 =
      (use_templates app loader false).1 ∧
    (∀ e, assocGet app.services "jinja_environment" = some e →
      (use_templates app loader false).1 = app) ∧
    (assocGet app.services "jinja_environment" = none →
      assocGet (use_templates app loader false).1.services "jinja_environment" =
        some (newEnvironment app loader false)) := by
  refine ⟨?_, ?_, ?_, ?_, ?_⟩
  · rw [use_templates_eq]
    exact ⟨_, rfl⟩
  · rw [use_templates_eq, use_templates_eq]
    exact ⟨_, rfl⟩
  · rw [use_templates_eq, use_templates_eq]
    simp only
    exact provisionedApp_stable _ loader false _ (provisioned_get app loader false)
  · intro e he
    rw [use_templates_eq]
    exact provisionedApp_stable app loader false e he
  · intro h
    rw [use_templates_eq]
    simp only [provisionedApp, h]
    rw [assocGet_assocSet_ne _ _ _ _ (by decide), assocGet_assocSet_self]

/-- Witness for C2 at a concrete application with an empty registry. -/
theorem use_templates_idempotent_witness :
    assocGet appW.services "jinja_environment" = none ∧
    assocGet (use_templates appW loaderW false).1.services "jinja_environment" =
      some (newEnvironment appW loaderW false) :=
  ⟨rfl, (use_templates_idempotent appW loaderW).2.2.2.2 rfl⟩

/-- C3: `get_response` always succeeds, producing status 200, exactly the
single header `Cache-Control: no-cache`, content type
`text/html; charset=utf-8` and body equal to the UTF-8 bytes of the input; in
particular the sync view helper wraps a template rendering `<p>hi</p>` into
exactly such a response. -/
theorem get_response_spec (html : String) :
    (get_response html).status = 200 ∧
    (get_response html).headers = [("Cache-Control", "no-cache")] ∧
    (get_response html).content =
      some { contentType := "text/html; charset=utf-8",
             body := utf8Bytes html } ∧
    (∀ env t args, Environment.get_template env (template_name "index") =
        Except.ok t →
      render_template t args = Except.ok "<p>hi</p>" →
      view env "index" args = Except.ok (get_response "<p>hi</p>")) := by
  refine ⟨rfl, rfl, rfl, ?_⟩
  intro env t args hget hrender
  unfold view
  rw [hget]
  show (render_template t args).map get_response = _
  rw [hrender]
  rfl

/-- Witness for C3 at a concrete environment and template. -/
theorem get_response_spec_witness :
    Environment.get_template envW (template_name "index") = Except.ok tmplW ∧
    render_template tmplW argsW = Except.ok "<p>hi</p>" ∧
    view envW "index" argsW = Except.ok (get_response "<p>hi</p>") ∧
    (get_response "<p>hi</p>").content =
      some { contentType := "text/html; charset=utf-8",
             body := [60, 112, 62, 104, 105, 60, 47, 112, 62] } :=
  ⟨rfl, rfl, (get_response_spec "x").2.2.2 envW tmplW argsW rfl rfl, by decide⟩

/-- C4: `template_name` appends `.html` exactly once to a name not already
ending in it, and is the identity on names that do; it is total (no error
conditions), being a plain conditional on the suffix test. -/
theorem template_name_spec (s : String) :
    (endswith s ".html" = false → template_name s = s ++ ".html") ∧
    (endswith s ".html" = true → template_name s = s) := by
  constructor
  · intro h
    simp [template_name, h]
  · intro h
    simp [template_name, h]

/-- Witness for C4 at the concrete name `index`. -/
theorem template_name_spec_witness :
    endswith "index" ".html" = false ∧
    template_name "index" = "index" ++ ".html" :=
  ⟨by decide, (template_name_spec "index").1 (by decide)⟩

/-- C5: `use_templates` returns a suspend-capable view function when
`enable_async = true` and a plain one when `enable_async = false`; the async
view normalizes the name, resolves it, awaits asynchronous rendering and
wraps via `get_response`, while the sync view resolves, renders synchronously
and wraps. -/
theorem use_templates_view_kinds (app : Application) (loader : PackageLoader) :
    (use_templates app loader true).2 =
      ViewFn.coroutineFn (view_async (provisionedEnv app loader true)) ∧
    (use_templates app loader false).2 =
      ViewFn.plainFn (view (provisionedEnv app loader false)) ∧
    (∀ env name args, view_async env name args =
      (Environment.get_template env (template_name name)).bind fun t =>
        (render_template_async t args).map get_response) ∧
    (∀ env name args, view env name args =
      (Environment.get_template env (template_name name)).bind fun t =>
        (render_template t args).map get_response) := by
  refine ⟨?_, ?_, fun _ _ _ => rfl, fun _ _ _ => rfl⟩
  · rw [use_templates_eq]
    rfl
  · rw [use_templates_eq]
    rfl

/-- C6: `view_async` performs asynchronous rendering — its result is the
awaited asynchronous render wrapped by `get_response` (regardless of the
documentation text claiming synchronous rendering); a template whose
asynchronous render resolves to `<p>async</p>` yields the same kind of
response as the sync case. -/
theorem view_async_renders_async (env : Environment) (name : String)
    (args : Args) (t : Template)
    (h : Environment.get_template env (template_name name) = Except.ok t) :
    view_async env name args =
      (render_template_async t args).map get_response ∧
    (render_template_async t args = Except.ok "<p>async</p>" →
      view_async env name args = Except.ok (get_response "<p>async</p>") ∧
      (get_response "<p>async</p>").status = 200 ∧
      (get_response "<p>async</p>").headers =
        [("Cache-Control", "no-cache")]) := by
  have hmain : view_async env name args =
      (render_template_async t args).map get_response := by
    unfold view_async
    rw [h]
    rfl
  refine ⟨hmain, fun hr => ⟨?_, rfl, rfl⟩⟩
  rw [hmain, hr]
  rfl

/-- Witness for C6: a concrete template whose sync and async renderings
differ; the async helper returns the asynchronous one. -/
theorem view_async_renders_async_witness :
    Environment.get_template envW (template_name "index") = Except.ok tmplW ∧
    render_template_async tmplW argsW = Except.ok "<p>async</p>" ∧
    view_async envW "index" argsW = Except.ok (get_response "<p>async</p>") ∧
    render_template tmplW argsW = Except.ok "<p>hi</p>" :=
  ⟨rfl, rfl,
    ((view_async_renders_async envW "index" argsW tmplW rfl).2 rfl).1, rfl⟩

/-- C7: engine failures propagate unmodified through every view entry point —
a failed name resolution or a failed rendering surfaces as the very same
error from `view` and `view_async`, and the view functions returned by
`use_templates` are exactly `view` / `view_async` over the provisioned
environment (they neither receive nor return the service registry, so a view
call cannot change it). -/
theorem error_propagation (env : Environment) (name : String) (args : Args)
    (e : EngineError) :
    (Environment.get_template env (template_name name) = Except.error e →
      view env name args = Except.error e ∧
      view_async env name args = Except.error e) ∧
    (∀ t, Environment.get_template env (template_name name) = Except.ok t →
      (render_template t args = Except.error e →
        view env name args = Except.error e) ∧
      (render_template_async t args = Except.error e →
        view_async env name args = Except.error e)) ∧
    (∀ app loader f, (use_templates app loader false).2 = ViewFn.plainFn f →
      f = view (provisionedEnv app loader false)) ∧
    (∀ app loader f, (use_templates app loader true).2 = ViewFn.coroutineFn f →
      f = view_async (provisionedEnv app loader true)) := by
  refine ⟨?_, ?_, ?_, ?_⟩
  · intro h
    constructor
    · unfold view
      rw [h]
      rfl
    · unfold view_async
      rw [h]
      rfl
  · intro t ht
    constructor
    · intro hr
      unfold view
      rw [ht]
      show (render_template t args).map get_response = _
      rw [hr]
      rfl
    · intro hr
      unfold view_async
      rw [ht]
      show (render_template_async t args).map get_response = _
      rw [hr]
      rfl
  · intro app loader f hf
    rw [use_templates_eq] at hf
    simpa using hf.symm
  · intro app loader f hf
    rw [use_templates_eq] at hf
    simpa using hf.symm

/-- Witness for C7: resolution of a missing template fails and that same
error is the result of `view`. -/
theorem error_propagation_witness :
    Environment.get_template envE (template_name "missing") =
      Except.error (EngineError.templateNotFound "missing.html") ∧
    view envE "missing" argsW =
      Except.error (EngineError.templateNotFound "missing.html") :=
  ⟨rfl, ((error_propagation envE "missing" argsW
      (EngineError.templateNotFound "missing.html")).1 rfl).1⟩

/-- C8: the names `index` and `index.html` normalize to the same string, so
`view` resolves the same compiled template and returns the same result for
both. -/
theorem view_index_same_template (env : Environment) (args : Args) :
    template_name "index" = "index.html" ∧
    template_name "index.html" = "index.html" ∧
    Environment.get_template env (template_name "index") =
      Environment.get_template env (template_name "index.html") ∧
    view env "index" args = view env "index.html" args := by
  have h1 : template_name "index" = "index.html" := by decide
    
  have h2 : template_name "index.html" = "index.html" := by decide
  refine ⟨h1, h2, ?_, ?_⟩
  · rw [h1, h2]
  · unfold view
    rw [h1, h2]

/-- C9: normalization is idempotent — applying `template_name` to an already
normalized name returns it unchanged. -/
theorem template_name_idempotent (s : String) :
    template_name (template_name s) = template_name s := by
  by_cases h : endswith s ".html" = true
  · simp [template_name, h]
  · have h' : endswith s ".html" = false := by simpa using h
    simp [template_name, h', endswith_append]

/-- C10: when the registry already holds an environment, `use_templates`
honors `enable_async` only for the kind of the returned view: with `true` it
returns a coroutine view over the stored environment as-is (even one created
without async capability) and leaves the application untouched; with `false`
it returns a plain view over it, also leaving the application untouched. -/
theorem use_templates_existing_env (app : Application) (loader : PackageLoader)
    (e : Environment)
    (h : assocGet app.services "jinja_environment" = some e) :
    (use_templates app loader true).1 = app ∧
    (use_templates app loader true).2 = ViewFn.coroutineFn (view_async e) ∧
    (use_templates app loader false).1 = app ∧
    (use_templates app loader false).2 = ViewFn.plainFn (view e) := by
  refine ⟨?_, ?_, ?_, ?_⟩
  · rw [use_templates_eq]
    exact provisionedApp_stable app loader true e h
  · rw [use_templates_eq]
    simp [provisionedEnv_stable app loader true e h]
  · rw [use_templates_eq]
    exact provisionedApp_stable app loader false e h
  · rw [use_templates_eq]
    simp [provisionedEnv_stable app loader false e h]

/-- Witness for C10: the stored environment has no async capability, yet the
call with `enable_async = true` returns a coroutine view bound to it and does
not touch the application. -/
theorem use_templates_existing_env_witness :
    assocGet appS.services "jinja_environment" = some envW ∧
    envW.enable_async = false ∧
    (use_templates appS loaderE true).1 = appS ∧
    (use_templates appS loaderE true).2 = ViewFn.coroutineFn (view_async envW) :=
  ⟨rfl, rfl, (use_templates_existing_env appS loaderE envW rfl).1,
    (use_templates_existing_env appS loaderE envW rfl).2.1⟩
